import Mathlib

/-!
The connection's read/write pipeline and the remote proxies of cpp-rdma.

A shallow embedding of

* `src/src/cpp/rdma_connection.cpp` (`RDMAConnection::rdma_read`, `rdma_write`, both forms,
  `get_remote_mr_info`),
* `src/include/rdmacpp/rdma-variable.hpp` (`RDMAVariable<T>`),
* `src/include/rdmacpp/rdma-vector.hpp` (`RDMAVector`, `RDMAVector::RDMAReference`).

Conventions of the embedding.

* Stateful code is written in state-passing style: a member function that uses the connection
  takes the connection value and returns the connection after the call.
* `uint64_t` and `size_t` are natural numbers; where the source adds or multiplies them the
  result is reduced modulo `2 ^ 64` (an LP64 platform, `sizeof(int) = 4`).
* A buffer is the list of its bytes. `memcpy` is modelled for buffers that hold at least the
  copied number of bytes, which is what the C++ call requires.
* The C header `rdma/common.h` is not part of the sources under study. What the C++ code uses
  from it (`MAX_BUFFER_SIZE`, `post_operation`, `wait_completion`) is a parameter, `Substrate`.
* Every call the connection makes into the substrate is logged in the ghost field `calls`.
-/

namespace RDMA

/-- One byte of memory. -/
abbrev Byte := Fin 256

/-- The modulus of `uint64_t` and of `size_t` arithmetic. -/
def UINT64_MOD : Nat := 2 ^ 64

/-- The status codes of the C layer, as far as the C++ code tells them apart:
`RDMA_SUCCESS` and anything else. -/
inductive rdma_status_t where
  | RDMA_SUCCESS
  | RDMA_FAILURE
deriving DecidableEq

/-- The two one-sided operations the connection posts. -/
inductive rdma_op_t where
  | OP_READ
  | OP_WRITE
deriving DecidableEq

/-- The record `qp_info_t`: queue pair number, GID, remote address and remote key. -/
structure qp_info_t where
  qp_num : Nat
  gid : Nat
  addr : Nat
  rkey : Nat
deriving DecidableEq

/-- A pointer argument `local_buf` as the connection sees it: the null pointer, the
connection's own registered buffer `config_.buf`, or some other buffer, disjoint from it and
given by the bytes it points to. -/
inductive LocalBuf where
  | null
  | direct
  | user (bytes : List Byte)
deriving DecidableEq

/-- The record `config_t`: the registered working buffer `buf`, and in `hw` everything the
substrate owns (queue pair, completion queue, and what the fabric can reach through them). -/
structure config_t (σ : Type) where
  buf : List Byte
  hw : σ

/-- A call into the transport substrate, as logged by the connection. -/
inductive TransportCall where
  | post_operation (op : rdma_op_t) (data : LocalBuf) (remote_info : qp_info_t) (length : Nat)
  | wait_completion
deriving DecidableEq

/-- The part of `rdma/common.h` the C++ code relies on: the constant `MAX_BUFFER_SIZE` and the
two functions `post_operation(config, op, data, remote_info, length)` and
`wait_completion(config)`, each returning a status and the configuration it leaves. -/
structure Substrate (σ : Type) where
  MAX_BUFFER_SIZE : Nat
  post_operation :
    config_t σ → rdma_op_t → LocalBuf → qp_info_t → Nat → rdma_status_t × config_t σ
  wait_completion : config_t σ → rdma_status_t × config_t σ

/-- The class `RDMAConnection`: its three data members, and the ghost log `calls` of the
substrate calls it has made so far. -/
structure RDMAConnection (σ : Type) where
  config_ : config_t σ
  remote_info_ : qp_info_t
  owns_resources_ : Bool
  calls : List TransportCall

/-- The bytes a pointer argument points to. -/
def LocalBuf.contents {σ : Type} (c : RDMAConnection σ) : LocalBuf → List Byte
  | .null => []
  | .direct => c.config_.buf
  | .user bytes => bytes

/-- The call `std::memcpy(dst, src, n)`: the first `n` bytes of `dst` become those of `src`. -/
def memcpy (dst src : List Byte) (n : Nat) : List Byte :=
  src.take n ++ dst.drop n

/-- The explicit form `rdma_read(local_buf, remote_addr, length, rkey)`. Returns the result,
the caller's buffer after the call and the connection after the call. The statuses of
`post_operation` and `wait_completion` are dropped, as in the source. -/
def rdma_read {σ : Type} (tr : Substrate σ) (c : RDMAConnection σ) (local_buf : LocalBuf)
    (remote_addr length rkey : Nat) : Bool × LocalBuf × RDMAConnection σ :=
  if local_buf = LocalBuf.null ∨ length = 0 ∨ length > tr.MAX_BUFFER_SIZE then
    (false, local_buf, c)
  else
    let temp_remote_info : qp_info_t := { qp_num := 0, gid := 0, addr := remote_addr, rkey := rkey }
    let using_direct_buf : Bool := decide (local_buf = LocalBuf.direct)
    let posted := tr.post_operation c.config_ rdma_op_t.OP_READ LocalBuf.null temp_remote_info length
    let completed := tr.wait_completion posted.2
    let c1 : RDMAConnection σ :=
      { c with
        config_ := completed.2
        calls := c.calls ++
          [TransportCall.post_operation rdma_op_t.OP_READ LocalBuf.null temp_remote_info length,
           TransportCall.wait_completion] }
    if using_direct_buf then (true, local_buf, c1)
    else (true, LocalBuf.user (memcpy (local_buf.contents c) completed.2.buf length), c1)

/-- The explicit form `rdma_write(local_buf, remote_addr, length, rkey)`. Returns the result
and the connection after the call. -/
def rdma_write {σ : Type} (tr : Substrate σ) (c : RDMAConnection σ) (local_buf : LocalBuf)
    (remote_addr length rkey : Nat) : Bool × RDMAConnection σ :=
  if local_buf = LocalBuf.null ∨ length = 0 ∨ length > tr.MAX_BUFFER_SIZE then
    (false, c)
  else
    let temp_remote_info : qp_info_t := { qp_num := 0, gid := 0, addr := remote_addr, rkey := rkey }
    let cfg0 : config_t σ :=
      if local_buf ≠ LocalBuf.direct then
        { c.config_ with buf := memcpy c.config_.buf (local_buf.contents c) length }
      else c.config_
    let posted := tr.post_operation cfg0 rdma_op_t.OP_WRITE LocalBuf.direct temp_remote_info length
    let completed := tr.wait_completion posted.2
    (true,
      { c with
        config_ := completed.2
        calls := c.calls ++
          [TransportCall.post_operation rdma_op_t.OP_WRITE LocalBuf.direct temp_remote_info length,
           TransportCall.wait_completion] })

/-- The member `get_remote_mr_info()`. -/
def get_remote_mr_info {σ : Type} (c : RDMAConnection σ) : qp_info_t :=
  c.remote_info_

/-- The relative form `rdma_read(local_buf, remote_offset, length)`. -/
def rdma_read_rel {σ : Type} (tr : Substrate σ) (c : RDMAConnection σ) (local_buf : LocalBuf)
    (remote_offset length : Nat) : Bool × LocalBuf × RDMAConnection σ :=
  rdma_read tr c local_buf ((c.remote_info_.addr + remote_offset) % UINT64_MOD) length
    c.remote_info_.rkey

/-- The relative form `rdma_write(local_buf, remote_offset, length)`. -/
def rdma_write_rel {σ : Type} (tr : Substrate σ) (c : RDMAConnection σ) (local_buf : LocalBuf)
    (remote_offset length : Nat) : Bool × RDMAConnection σ :=
  rdma_write tr c local_buf ((c.remote_info_.addr + remote_offset) % UINT64_MOD) length
    c.remote_info_.rkey

/-! ## Scalar types and their object representation -/

/-- The exceptions the proxies throw, each with its message. -/
inductive Exn where
  | invalid_argument (what : String)
  | out_of_range (what : String)
  | runtime_error (what : String)
  | domain_error (what : String)
deriving DecidableEq

/-- What the template `RDMAVariable<T>` uses of its parameter `T`: `sizeof(T)`, the object
representation read and written through `&value`, the value `T{}`, the literal `1`, the
comparison `value == 0` and the four arithmetic operators. -/
structure CType (α : Type) where
  sizeof : Nat
  to_bytes : α → List Byte
  of_bytes : List Byte → α
  zero : α
  one : α
  is_zero : α → Bool
  add : α → α → α
  sub : α → α → α
  mul : α → α → α
  div : α → α → α

/-- Little-endian bytes of `n`, exactly `k` of them. -/
def toBytes : Nat → Nat → List Byte
  | 0, _ => []
  | k + 1, n => ⟨n % 256, Nat.mod_lt n (by decide)⟩ :: toBytes k (n / 256)

/-- The number a little-endian byte string stands for. -/
def fromBytes : List Byte → Nat
  | [] => 0
  | b :: bs => b.val + 256 * fromBytes bs

/-- The widths of the built-in integer types. -/
inductive IntWidth where
  | w8
  | w16
  | w32
  | w64
deriving DecidableEq

/-- A built-in integer type: its width and whether it is signed. -/
structure IntTy where
  width : IntWidth
  signed : Bool
deriving DecidableEq

/-- The size in bytes, `sizeof(T)`. -/
def IntTy.sizeof (T : IntTy) : Nat :=
  match T.width with
  | .w8 => 1
  | .w16 => 2
  | .w32 => 4
  | .w64 => 8

/-- The number of values of the type, `2 ^ (8 * sizeof(T))`. -/
def IntTy.modulus (T : IntTy) : Nat := 256 ^ T.sizeof

/-- The value of type `T` congruent to `z`: conversion to `T`, two's complement. -/
def IntTy.wrap (T : IntTy) (z : Int) : Int :=
  let m := z % (T.modulus : Int)
  if T.signed = true ∧ (T.modulus : Int) ≤ 2 * m then m - T.modulus else m

/-- The values of type `T`. -/
def IntTy.representable (T : IntTy) (z : Int) : Prop :=
  if T.signed = true then -(T.modulus : Int) ≤ 2 * z ∧ 2 * z < T.modulus
  else 0 ≤ z ∧ z < T.modulus

instance (T : IntTy) (z : Int) : Decidable (T.representable z) := by
  unfold IntTy.representable
  exact inferInstance

/-- The object representation of a value of type `T`. -/
def IntTy.to_bytes (T : IntTy) (v : Int) : List Byte :=
  toBytes T.sizeof (v % (T.modulus : Int)).toNat

/-- The value of type `T` held in the first `sizeof(T)` bytes of a buffer. -/
def IntTy.of_bytes (T : IntTy) (bs : List Byte) : Int :=
  T.wrap (fromBytes (bs.take T.sizeof))

/-- The integer type `T` as a template argument. Arithmetic is that of the machine: the exact
result converted back to `T`; division truncates toward zero. -/
def IntTy.ctype (T : IntTy) : CType Int where
  sizeof := T.sizeof
  to_bytes := T.to_bytes
  of_bytes := T.of_bytes
  zero := 0
  one := 1
  is_zero := fun v => decide (v = 0)
  add := fun a b => T.wrap (a + b)
  sub := fun a b => T.wrap (a - b)
  mul := fun a b => T.wrap (a * b)
  div := fun a b => T.wrap (Int.tdiv a b)

/-- The type `int`. -/
def int_t : IntTy := { width := IntWidth.w32, signed := true }

/-! ## `RDMAVariable<T>` -/

/-- The class `RDMAVariable<T>`: the remote address and key it is bound to. The connection
it points to is the connection value passed to each member. -/
structure RDMAVariable where
  remote_addr : Nat
  rkey : Nat
deriving DecidableEq

/-- The constructor of `RDMAVariable<T>`. -/
def RDMAVariable.create (conn_is_null : Bool) (remote_addr rkey : Nat) :
    Except Exn RDMAVariable :=
  if conn_is_null then Except.error (Exn.invalid_argument "Connection cannot be null")
  else Except.ok { remote_addr := remote_addr, rkey := rkey }

/-- The conversion `operator T() const`. -/
def RDMAVariable.get {σ α : Type} (tr : Substrate σ) (T : CType α) (p : RDMAVariable)
    (c : RDMAConnection σ) : Except Exn α × RDMAConnection σ :=
  let value : LocalBuf := LocalBuf.user (T.to_bytes T.zero)
  let r := rdma_read tr c value p.remote_addr T.sizeof p.rkey
  if r.1 = false then (Except.error (Exn.runtime_error "RDMA read operation failed"), r.2.2)
  else (Except.ok (T.of_bytes (r.2.1.contents r.2.2)), r.2.2)

/-- The assignment `operator=(const T& value)`; on success it returns the proxy. -/
def RDMAVariable.assign {σ α : Type} (tr : Substrate σ) (T : CType α) (p : RDMAVariable)
    (c : RDMAConnection σ) (value : α) : Except Exn RDMAVariable × RDMAConnection σ :=
  let r := rdma_write tr c (LocalBuf.user (T.to_bytes value)) p.remote_addr T.sizeof p.rkey
  if r.1 = false then (Except.error (Exn.runtime_error "RDMA write operation failed"), r.2)
  else (Except.ok p, r.2)

/-- The shape shared by the read-modify-write members: `T current = *this;` then
`*this = f(current);`. -/
def RDMAVariable.update {σ α : Type} (tr : Substrate σ) (T : CType α) (p : RDMAVariable)
    (c : RDMAConnection σ) (f : α → α) : Except Exn RDMAVariable × RDMAConnection σ :=
  match p.get tr T c with
  | (Except.error e, c1) => (Except.error e, c1)
  | (Except.ok current, c1) => p.assign tr T c1 (f current)

/-- The member `operator+=`. -/
def RDMAVariable.add_assign {σ α : Type} (tr : Substrate σ) (T : CType α) (p : RDMAVariable)
    (c : RDMAConnection σ) (value : α) : Except Exn RDMAVariable × RDMAConnection σ :=
  p.update tr T c (fun current => T.add current value)

/-- The member `operator-=`. -/
def RDMAVariable.sub_assign {σ α : Type} (tr : Substrate σ) (T : CType α) (p : RDMAVariable)
    (c : RDMAConnection σ) (value : α) : Except Exn RDMAVariable × RDMAConnection σ :=
  p.update tr T c (fun current => T.sub current value)

/-- The member `operator*=`. -/
def RDMAVariable.mul_assign {σ α : Type} (tr : Substrate σ) (T : CType α) (p : RDMAVariable)
    (c : RDMAConnection σ) (value : α) : Except Exn RDMAVariable × RDMAConnection σ :=
  p.update tr T c (fun current => T.mul current value)

/-- The member `operator/=`. -/
def RDMAVariable.div_assign {σ α : Type} (tr : Substrate σ) (T : CType α) (p : RDMAVariable)
    (c : RDMAConnection σ) (value : α) : Except Exn RDMAVariable × RDMAConnection σ :=
  if T.is_zero value = true then (Except.error (Exn.domain_error "Division by zero"), c)
  else p.update tr T c (fun current => T.div current value)

/-- Pre-increment, `operator++()`. -/
def RDMAVariable.pre_inc {σ α : Type} (tr : Substrate σ) (T : CType α) (p : RDMAVariable)
    (c : RDMAConnection σ) : Except Exn RDMAVariable × RDMAConnection σ :=
  p.update tr T c (fun value => T.add value T.one)

/-- Pre-decrement, `operator--()`. -/
def RDMAVariable.pre_dec {σ α : Type} (tr : Substrate σ) (T : CType α) (p : RDMAVariable)
    (c : RDMAConnection σ) : Except Exn RDMAVariable × RDMAConnection σ :=
  p.update tr T c (fun value => T.sub value T.one)

/-- Post-increment, `operator++(int)`: returns the value read. -/
def RDMAVariable.post_inc {σ α : Type} (tr : Substrate σ) (T : CType α) (p : RDMAVariable)
    (c : RDMAConnection σ) : Except Exn α × RDMAConnection σ :=
  match p.get tr T c with
  | (Except.error e, c1) => (Except.error e, c1)
  | (Except.ok old_value, c1) =>
    match p.assign tr T c1 (T.add old_value T.one) with
    | (Except.error e, c2) => (Except.error e, c2)
    | (Except.ok _, c2) => (Except.ok old_value, c2)

/-- Post-decrement, `operator--(int)`: returns the value read. -/
def RDMAVariable.post_dec {σ α : Type} (tr : Substrate σ) (T : CType α) (p : RDMAVariable)
    (c : RDMAConnection σ) : Except Exn α × RDMAConnection σ :=
  match p.get tr T c with
  | (Except.error e, c1) => (Except.error e, c1)
  | (Except.ok old_value, c1) =>
    match p.assign tr T c1 (T.sub old_value T.one) with
    | (Except.error e, c2) => (Except.error e, c2)
    | (Except.ok _, c2) => (Except.ok old_value, c2)

/-! ## `RDMAVector` -/

/-- The class `RDMAVector`: remote base address, key and element count. -/
structure RDMAVector where
  remote_addr : Nat
  rkey : Nat
  size : Nat
deriving DecidableEq

/-- The nested class `RDMAVector::RDMAReference`: the parent vector and the index. -/
structure RDMAReference where
  parent : RDMAVector
  index : Nat
deriving DecidableEq

/-- The constructor of `RDMAVector`. -/
def RDMAVector.create (conn_is_null : Bool) (remote_addr rkey size : Nat) :
    Except Exn RDMAVector :=
  if conn_is_null then Except.error (Exn.invalid_argument "Connection cannot be null")
  else if size = 0 then Except.error (Exn.invalid_argument "Vector size cannot be zero")
  else Except.ok { remote_addr := remote_addr, rkey := rkey, size := size }

/-- The member `get_size()`. -/
def RDMAVector.get_size (v : RDMAVector) : Nat := v.size

/-- The member `operator[](size_t index)`. It is handed the connection like every member and
returns it as it leaves it. -/
def RDMAVector.index {σ : Type} (v : RDMAVector) (index : Nat) (c : RDMAConnection σ) :
    Except Exn RDMAReference × RDMAConnection σ :=
  if index ≥ v.size then (Except.error (Exn.out_of_range "Index out of bounds"), c)
  else (Except.ok { parent := v, index := index }, c)

/-- The local `elem_addr = parent->remote_addr + index * sizeof(int)`, in `uint64_t`. -/
def RDMAReference.elem_addr (r : RDMAReference) : Nat :=
  (r.parent.remote_addr + (r.index * int_t.sizeof) % UINT64_MOD) % UINT64_MOD

/-- The conversion `RDMAReference::operator int() const`. -/
def RDMAReference.get {σ : Type} (tr : Substrate σ) (r : RDMAReference)
    (c : RDMAConnection σ) : Except Exn Int × RDMAConnection σ :=
  let value : LocalBuf := LocalBuf.user (int_t.to_bytes 0)
  let elem_addr := r.elem_addr
  let res := rdma_read tr c value elem_addr int_t.sizeof r.parent.rkey
  if res.1 = false then (Except.error (Exn.runtime_error "RDMA read operation failed"), res.2.2)
  else (Except.ok (int_t.of_bytes (res.2.1.contents res.2.2)), res.2.2)

/-- The assignment `RDMAReference::operator=(int value)`. -/
def RDMAReference.assign {σ : Type} (tr : Substrate σ) (r : RDMAReference)
    (c : RDMAConnection σ) (value : Int) : Except Exn RDMAReference × RDMAConnection σ :=
  let elem_addr := r.elem_addr
  let res := rdma_write tr c (LocalBuf.user (int_t.to_bytes value)) elem_addr int_t.sizeof
    r.parent.rkey
  if res.1 = false then (Except.error (Exn.runtime_error "RDMA write operation failed"), res.2)
  else (Except.ok r, res.2)

/-- The expression `int x = array[i];`. -/
def RDMAVector.read_at {σ : Type} (tr : Substrate σ) (v : RDMAVector) (i : Nat)
    (c : RDMAConnection σ) : Except Exn Int × RDMAConnection σ :=
  match v.index i c with
  | (Except.error e, c1) => (Except.error e, c1)
  | (Except.ok r, c1) => r.get tr c1

/-- The statement `array[i] = x;`. -/
def RDMAVector.write_at {σ : Type} (tr : Substrate σ) (v : RDMAVector) (i : Nat)
    (c : RDMAConnection σ) (x : Int) : Except Exn RDMAReference × RDMAConnection σ :=
  match v.index i c with
  | (Except.error e, c1) => (Except.error e, c1)
  | (Except.ok r, c1) => r.assign tr c1 x

/-! ## Transport models -/

/-- Remote memory: under each remote key, the byte at each address. -/
abbrev RemoteMem := Nat → Nat → Byte

/-- Remote memory after `bytes` are stored at `(rkey, addr)`. -/
def store (mem : RemoteMem) (rkey addr : Nat) (bytes : List Byte) : RemoteMem :=
  fun k a => if k = rkey ∧ addr ≤ a ∧ a < addr + bytes.length then bytes.getD (a - addr) 0 else mem k a

/-- The `n` bytes of remote memory at `(rkey, addr)`. -/
def load (mem : RemoteMem) (rkey addr n : Nat) : List Byte :=
  (List.range n).map (fun i => mem rkey (addr + i))

/-- Modelled from the spec: the transport substrate (`post_operation`, `wait_completion` of
`rdma/common.h`), in which a WRITE copies `length` bytes of the working buffer to remote
memory at (address, key), a READ copies `length` bytes of remote memory at (address, key)
into the working buffer, and both report success. -/
def idealSubstrate (max_buffer_size : Nat) : Substrate RemoteMem where
  MAX_BUFFER_SIZE := max_buffer_size
  post_operation := fun cfg op _ remote_info length =>
    match op with
    | rdma_op_t.OP_WRITE =>
      (rdma_status_t.RDMA_SUCCESS,
        { cfg with hw := store cfg.hw remote_info.rkey remote_info.addr (cfg.buf.take length) })
    | rdma_op_t.OP_READ =>
      (rdma_status_t.RDMA_SUCCESS,
        { cfg with
          buf := memcpy cfg.buf (load cfg.hw remote_info.rkey remote_info.addr length) length })
  wait_completion := fun cfg => (rdma_status_t.RDMA_SUCCESS, cfg)

/-- A substrate on which every operation fails: nothing is transferred, and both
`post_operation` and `wait_completion` report failure. -/
def failingSubstrate (max_buffer_size : Nat) : Substrate Unit where
  MAX_BUFFER_SIZE := max_buffer_size
  post_operation := fun cfg _ _ _ _ => (rdma_status_t.RDMA_FAILURE, cfg)
  wait_completion := fun cfg => (rdma_status_t.RDMA_FAILURE, cfg)

/-- The value of type `T` that remote memory holds at `(rkey, addr)`. -/
def remoteValue (T : IntTy) (mem : RemoteMem) (rkey addr : Nat) : Int :=
  T.of_bytes (load mem rkey addr T.sizeof)

/-- The log entries of one read posted by `rdma_read`: the `post_operation` call and the
`wait_completion` call that follows it. -/
def oneRead (remote_addr rkey length : Nat) : List TransportCall :=
  [TransportCall.post_operation rdma_op_t.OP_READ LocalBuf.null
     { qp_num := 0, gid := 0, addr := remote_addr, rkey := rkey } length,
   TransportCall.wait_completion]

/-- The log entries of one write posted by `rdma_write`. -/
def oneWrite (remote_addr rkey length : Nat) : List TransportCall :=
  [TransportCall.post_operation rdma_op_t.OP_WRITE LocalBuf.direct
     { qp_num := 0, gid := 0, addr := remote_addr, rkey := rkey } length,
   TransportCall.wait_completion]

instance instDecidableEqExcept {ε α : Type} [DecidableEq ε] [DecidableEq α] :
    DecidableEq (Except ε α) := fun a b =>
  match a, b with
  | Except.ok x, Except.ok y =>
    if h : x = y then isTrue (by rw [h]) else isFalse (fun h2 => h (Except.ok.inj h2))
  | Except.error x, Except.error y =>
    if h : x = y then isTrue (by rw [h]) else isFalse (fun h2 => h (Except.error.inj h2))
  | Except.ok _, Except.error _ => isFalse (fun h => Except.noConfusion h)
  | Except.error _, Except.ok _ => isFalse (fun h => Except.noConfusion h)

/-! ## The memory of the example program

`server_function` of `src/src/examples/rdma-example.cpp` exposes ten `int`s `0, 10, .., 90`
and a counter `42`; `client_function` binds the array to the negotiated base address and the
counter to the base plus 40. -/

/-- The negotiated base address used in the examples. -/
def demoBase : Nat := 4096

/-- The negotiated remote key used in the examples. -/
def demoKey : Nat := 7

/-- Remote memory as the example server initialises it. -/
def demoMem : RemoteMem :=
  store
    (store (fun _ _ => 0) demoKey demoBase
      ((List.range 10).flatMap (fun i => int_t.to_bytes (10 * (i : Int)))))
    demoKey (demoBase + 40) (int_t.to_bytes 42)

/-- A client connection to the example server, over the ideal substrate. -/
def demoConn : RDMAConnection RemoteMem :=
  { config_ := { buf := List.replicate 16 0, hw := demoMem }
    remote_info_ := { qp_num := 1, gid := 2, addr := demoBase, rkey := demoKey }
    owns_resources_ := true
    calls := [] }

/-- A connection whose working buffer still holds the bytes of `42`, over a substrate state
with nothing in it; used with `failingSubstrate`. -/
def staleConn : RDMAConnection Unit :=
  { config_ := { buf := int_t.to_bytes 42 ++ List.replicate 12 0, hw := () }
    remote_info_ := { qp_num := 1, gid := 2, addr := demoBase, rkey := demoKey }
    owns_resources_ := true
    calls := [] }

/-- The array proxy of the example client. -/
def demoArray : RDMAVector := { remote_addr := demoBase, rkey := demoKey, size := 10 }

/-- The counter proxy of the example client. -/
def demoCounter : RDMAVariable := { remote_addr := demoBase + 40, rkey := demoKey }

/-! ## The example client -/

/-- Sequencing under exceptions: continue with `k` on the value and connection `r` left,
unless `r` threw. -/
def andThen {σ α β : Type} (r : Except Exn α × RDMAConnection σ)
    (k : α → RDMAConnection σ → Except Exn β × RDMAConnection σ) :
    Except Exn β × RDMAConnection σ :=
  match r with
  | (Except.error e, c) => (Except.error e, c)
  | (Except.ok a, c) => k a c

/-- The loop `for (size_t i = 0; i < array.get_size(); i++) std::cout << array[i]`, given
the indices it still has to visit; returns the values printed. -/
def RDMAVector.read_elements {σ : Type} (tr : Substrate σ) (v : RDMAVector) :
    List Nat → RDMAConnection σ → Except Exn (List Int) × RDMAConnection σ
  | [], c => (Except.ok [], c)
  | i :: rest, c =>
    andThen (v.read_at tr i c) fun x c1 =>
    andThen (RDMAVector.read_elements tr v rest c1) fun xs c2 =>
    (Except.ok (x :: xs), c2)

/-- What one run of `client_function` observes, in program order: the values it prints, and
the values of the three expressions `counter++`, `array[2]` and `array[2] * 2`, which the
source computes without printing. -/
structure ClientRun where
  counter_initial : Int
  array_initial : List Int
  increment_result : Int
  counter_after_increment : Int
  counter_after_add : Int
  element_read : Int
  element_written : Int
  counter_final : Int
  array_final : List Int
deriving DecidableEq

/-- The body of `client_function` of `src/src/examples/rdma-example.cpp` once the connection
`client` is established: the two proxies are bound to the negotiated credential, the counter
and the array are read, the counter is incremented and then increased by 10, `array[3]` and
`array[5]` are assigned, and counter and array are read again. An exception ends the run. -/
def client_function {σ : Type} (tr : Substrate σ) (client : RDMAConnection σ) :
    Except Exn ClientRun × RDMAConnection σ :=
  let remote_info := get_remote_mr_info client
  match RDMAVector.create false remote_info.addr remote_info.rkey 10 with
  | Except.error e => (Except.error e, client)
  | Except.ok array =>
    match RDMAVariable.create false ((remote_info.addr + 40) % UINT64_MOD) remote_info.rkey with
    | Except.error e => (Except.error e, client)
    | Except.ok counter =>
      andThen (counter.get tr int_t.ctype client) fun counter_initial c1 =>
      andThen (array.read_elements tr (List.range array.get_size) c1) fun array_initial c2 =>
      andThen (counter.post_inc tr int_t.ctype c2) fun increment_result c3 =>
      andThen (counter.get tr int_t.ctype c3) fun counter_after_increment c4 =>
      andThen (counter.add_assign tr int_t.ctype c4 10) fun _ c5 =>
      andThen (counter.get tr int_t.ctype c5) fun counter_after_add c6 =>
      andThen (array.write_at tr 3 c6 999) fun _ c7 =>
      andThen (array.read_at tr 2 c7) fun element_read c8 =>
      andThen (array.write_at tr 5 c8 (int_t.ctype.mul element_read 2)) fun _ c9 =>
      andThen (counter.get tr int_t.ctype c9) fun counter_final c10 =>
      andThen (array.read_elements tr (List.range array.get_size) c10) fun array_final c11 =>
      (Except.ok
        { counter_initial := counter_initial
          array_initial := array_initial
          increment_result := increment_result
          counter_after_increment := counter_after_increment
          counter_after_add := counter_after_add
          element_read := element_read
          element_written := int_t.ctype.mul element_read 2
          counter_final := counter_final
          array_final := array_final }, c11)

/-! ## Bounds check, length check and the two addressing forms -/

theorem rdma_read_rejected {σ : Type} (tr : Substrate σ) (c : RDMAConnection σ)
    (local_buf : LocalBuf) (remote_addr length rkey : Nat)
    (h : local_buf = LocalBuf.null ∨ length = 0 ∨ length > tr.MAX_BUFFER_SIZE) :
    rdma_read tr c local_buf remote_addr length rkey = (false, local_buf, c) := by
  unfold rdma_read
  rw [if_pos h]

theorem rdma_write_rejected {σ : Type} (tr : Substrate σ) (c : RDMAConnection σ)
    (local_buf : LocalBuf) (remote_addr length rkey : Nat)
    (h : local_buf = LocalBuf.null ∨ length = 0 ∨ length > tr.MAX_BUFFER_SIZE) :
    rdma_write tr c local_buf remote_addr length rkey = (false, c) := by
  unfold rdma_write
  rw [if_pos h]

theorem rdma_guard_passes {max : Nat} {local_buf : LocalBuf} {length : Nat}
    (hbuf : local_buf ≠ LocalBuf.null) (hpos : 0 < length) (hmax : length ≤ max) :
    ¬ (local_buf = LocalBuf.null ∨ length = 0 ∨ length > max) := by
  rintro (h | h | h)
  · exact hbuf h
  · omega
  · omega

/-- The result, caller buffer and connection after a read that passes the argument check. -/
theorem rdma_read_accepted {σ : Type} (tr : Substrate σ) (c : RDMAConnection σ)
    (bytes : List Byte) (remote_addr length rkey : Nat)
    (hpos : 0 < length) (hmax : length ≤ tr.MAX_BUFFER_SIZE) :
    rdma_read tr c (LocalBuf.user bytes) remote_addr length rkey =
      (true,
        LocalBuf.user (memcpy bytes
          (tr.wait_completion (tr.post_operation c.config_ rdma_op_t.OP_READ LocalBuf.null
            { qp_num := 0, gid := 0, addr := remote_addr, rkey := rkey } length).2).2.buf length),
        { c with
          config_ := (tr.wait_completion (tr.post_operation c.config_ rdma_op_t.OP_READ
            LocalBuf.null { qp_num := 0, gid := 0, addr := remote_addr, rkey := rkey } length).2).2
          calls := c.calls ++ oneRead remote_addr rkey length }) := by
  unfold rdma_read
  rw [if_neg (rdma_guard_passes (by simp) hpos hmax)]
  simp [LocalBuf.contents, oneRead]

/-- The result and connection after a write that passes the argument check. -/
theorem rdma_write_accepted {σ : Type} (tr : Substrate σ) (c : RDMAConnection σ)
    (bytes : List Byte) (remote_addr length rkey : Nat)
    (hpos : 0 < length) (hmax : length ≤ tr.MAX_BUFFER_SIZE) :
    rdma_write tr c (LocalBuf.user bytes) remote_addr length rkey =
      (true,
        { c with
          config_ := (tr.wait_completion (tr.post_operation
            { c.config_ with buf := memcpy c.config_.buf bytes length } rdma_op_t.OP_WRITE
            LocalBuf.direct { qp_num := 0, gid := 0, addr := remote_addr, rkey := rkey } length).2).2
          calls := c.calls ++ oneWrite remote_addr rkey length }) := by
  unfold rdma_write
  rw [if_neg (rdma_guard_passes (by simp) hpos hmax)]
  simp [LocalBuf.contents, oneWrite]

theorem rdma_read_accepted_direct {σ : Type} (tr : Substrate σ) (c : RDMAConnection σ)
    (remote_addr length rkey : Nat) (hpos : 0 < length) (hmax : length ≤ tr.MAX_BUFFER_SIZE) :
    rdma_read tr c LocalBuf.direct remote_addr length rkey =
      (true, LocalBuf.direct,
        { c with
          config_ := (tr.wait_completion (tr.post_operation c.config_ rdma_op_t.OP_READ
            LocalBuf.null { qp_num := 0, gid := 0, addr := remote_addr, rkey := rkey } length).2).2
          calls := c.calls ++ oneRead remote_addr rkey length }) := by
  unfold rdma_read
  rw [if_neg (rdma_guard_passes (by simp) hpos hmax)]
  simp [oneRead]

theorem rdma_write_accepted_direct {σ : Type} (tr : Substrate σ) (c : RDMAConnection σ)
    (remote_addr length rkey : Nat) (hpos : 0 < length) (hmax : length ≤ tr.MAX_BUFFER_SIZE) :
    rdma_write tr c LocalBuf.direct remote_addr length rkey =
      (true,
        { c with
          config_ := (tr.wait_completion (tr.post_operation c.config_ rdma_op_t.OP_WRITE
            LocalBuf.direct { qp_num := 0, gid := 0, addr := remote_addr, rkey := rkey } length).2).2
          calls := c.calls ++ oneWrite remote_addr rkey length }) := by
  unfold rdma_write
  rw [if_neg (rdma_guard_passes (by simp) hpos hmax)]
  simp [oneWrite]

/-- C1: for a vector of size `n`, `operator[]` returns an accessor for every `i < n`; for
every `i >= n` it throws the out-of-range error, and so do `array[i]` read and written, with
the connection (log of transport calls, working buffer, substrate state) left as it was. -/
theorem index_bounds_checked {σ : Type} (tr : Substrate σ) (v : RDMAVector) (i : Nat)
    (c : RDMAConnection σ) (x : Int) :
    (i < v.size → v.index i c = (Except.ok { parent := v, index := i }, c)) ∧
    (v.size ≤ i →
      v.index i c = (Except.error (Exn.out_of_range "Index out of bounds"), c) ∧
      v.read_at tr i c = (Except.error (Exn.out_of_range "Index out of bounds"), c) ∧
      v.write_at tr i c x = (Except.error (Exn.out_of_range "Index out of bounds"), c)) := by
  constructor
  · intro h
    unfold RDMAVector.index
    rw [if_neg (by omega)]
  · intro h
    have hidx : v.index i c = (Except.error (Exn.out_of_range "Index out of bounds"), c) := by
      unfold RDMAVector.index
      rw [if_pos h]
    refine ⟨hidx, ?_, ?_⟩
    · unfold RDMAVector.read_at
      rw [hidx]
    · unfold RDMAVector.write_at
      rw [hidx]

theorem index_bounds_checked_witness :
    demoArray.index 9 demoConn = (Except.ok { parent := demoArray, index := 9 }, demoConn) ∧
    demoArray.read_at (idealSubstrate 16) 10 demoConn =
      (Except.error (Exn.out_of_range "Index out of bounds"), demoConn) :=
  ⟨(index_bounds_checked (idealSubstrate 16) demoArray 9 demoConn 0).1 (by decide),
   ((index_bounds_checked (idealSubstrate 16) demoArray 10 demoConn 0).2 (by decide)).2.1⟩

/-- C3: `rdma_read` and `rdma_write` called with `length == 0` or `length > MAX_BUFFER_SIZE`
return false, hand back the caller's buffer as it was and leave the connection as it was
(no transport call logged, working buffer and substrate state, remote memory included,
untouched); any call that follows behaves as it would have without the rejected call. -/
theorem bad_length_rejected {σ : Type} (tr : Substrate σ) (c : RDMAConnection σ)
    (local_buf : LocalBuf) (remote_addr length rkey : Nat)
    (h : length = 0 ∨ length > tr.MAX_BUFFER_SIZE) :
    rdma_read tr c local_buf remote_addr length rkey = (false, local_buf, c) ∧
    rdma_write tr c local_buf remote_addr length rkey = (false, c) ∧
    (∀ (b : LocalBuf) (a l k : Nat),
      rdma_read tr (rdma_read tr c local_buf remote_addr length rkey).2.2 b a l k =
        rdma_read tr c b a l k ∧
      rdma_write tr (rdma_read tr c local_buf remote_addr length rkey).2.2 b a l k =
        rdma_write tr c b a l k ∧
      rdma_read tr (rdma_write tr c local_buf remote_addr length rkey).2 b a l k =
        rdma_read tr c b a l k ∧
      rdma_write tr (rdma_write tr c local_buf remote_addr length rkey).2 b a l k =
        rdma_write tr c b a l k) := by
  have hr := rdma_read_rejected tr c local_buf remote_addr length rkey (Or.inr h)
  have hw := rdma_write_rejected tr c local_buf remote_addr length rkey (Or.inr h)
  refine ⟨hr, hw, ?_⟩
  intro b a l k
  rw [hr, hw]
  exact ⟨rfl, rfl, rfl, rfl⟩

theorem bad_length_rejected_witness :
    rdma_read (idealSubstrate 16) demoConn (LocalBuf.user (int_t.to_bytes 5)) demoBase 17 demoKey
      = (false, LocalBuf.user (int_t.to_bytes 5), demoConn) ∧
    rdma_write (idealSubstrate 16) demoConn (LocalBuf.user (int_t.to_bytes 5)) demoBase 0 demoKey
      = (false, demoConn) :=
  ⟨(bad_length_rejected (idealSubstrate 16) demoConn (LocalBuf.user (int_t.to_bytes 5))
      demoBase 17 demoKey (Or.inr (by decide))).1,
   (bad_length_rejected (idealSubstrate 16) demoConn (LocalBuf.user (int_t.to_bytes 5))
      demoBase 0 demoKey (Or.inl rfl)).2.1⟩

/-- C10: the relative forms are the explicit forms at the address `base + offset` (computed in
`uint64_t`) with the key `key`, where `(base, key)` is the credential that
`get_remote_mr_info()` returns: same result, same caller buffer, same connection afterwards. -/
theorem relative_form_is_explicit_form {σ : Type} (tr : Substrate σ) (c : RDMAConnection σ)
    (local_buf : LocalBuf) (remote_offset length : Nat) :
    rdma_read_rel tr c local_buf remote_offset length =
      rdma_read tr c local_buf (((get_remote_mr_info c).addr + remote_offset) % UINT64_MOD)
        length (get_remote_mr_info c).rkey ∧
    rdma_write_rel tr c local_buf remote_offset length =
      rdma_write tr c local_buf (((get_remote_mr_info c).addr + remote_offset) % UINT64_MOD)
        length (get_remote_mr_info c).rkey ∧
    ((get_remote_mr_info c).addr + remote_offset < UINT64_MOD →
      rdma_read_rel tr c local_buf remote_offset length =
        rdma_read tr c local_buf ((get_remote_mr_info c).addr + remote_offset)
          length (get_remote_mr_info c).rkey ∧
      rdma_write_rel tr c local_buf remote_offset length =
        rdma_write tr c local_buf ((get_remote_mr_info c).addr + remote_offset)
          length (get_remote_mr_info c).rkey) := by
  refine ⟨rfl, rfl, ?_⟩
  intro h
  unfold rdma_read_rel rdma_write_rel get_remote_mr_info
  unfold get_remote_mr_info at h
  rw [Nat.mod_eq_of_lt h]
  exact ⟨rfl, rfl⟩

theorem relative_form_is_explicit_form_witness :
    rdma_read_rel (idealSubstrate 16) demoConn (LocalBuf.user (int_t.to_bytes 0)) 40 4 =
      rdma_read (idealSubstrate 16) demoConn (LocalBuf.user (int_t.to_bytes 0)) (4096 + 40) 4 7 ∧
    rdma_write_rel (idealSubstrate 16) demoConn (LocalBuf.user (int_t.to_bytes 0)) 40 4 =
      rdma_write (idealSubstrate 16) demoConn (LocalBuf.user (int_t.to_bytes 0)) (4096 + 40) 4 7 :=
  (relative_form_is_explicit_form (idealSubstrate 16) demoConn (LocalBuf.user (int_t.to_bytes 0))
    40 4).2.2 (by decide)

/-- C2: on a substrate whose `post_operation` and `wait_completion` both report failure and
transfer nothing, `rdma_read` and `rdma_write` still return true; the scalar proxy then
returns the stale content of the working buffer (here 42) as the value read, and an
assignment reports success. -/
theorem transport_failure_not_reported :
    ((failingSubstrate 16).post_operation staleConn.config_ rdma_op_t.OP_READ LocalBuf.null
      { qp_num := 0, gid := 0, addr := demoBase + 40, rkey := demoKey } 4).1
        = rdma_status_t.RDMA_FAILURE ∧
    ((failingSubstrate 16).wait_completion staleConn.config_).1 = rdma_status_t.RDMA_FAILURE ∧
    (rdma_read (failingSubstrate 16) staleConn (LocalBuf.user (int_t.to_bytes 0))
      (demoBase + 40) 4 demoKey).1 = true ∧
    (rdma_write (failingSubstrate 16) staleConn (LocalBuf.user (int_t.to_bytes 5))
      (demoBase + 40) 4 demoKey).1 = true ∧
    (demoCounter.get (failingSubstrate 16) int_t.ctype staleConn).1 = Except.ok 42 ∧
    (demoCounter.assign (failingSubstrate 16) int_t.ctype staleConn 5).1
      = Except.ok demoCounter := by
  refine ⟨rfl, rfl, ?_, ?_, ?_, ?_⟩ <;> decide

/-- Whatever statuses the substrate reports, a call that passes the argument check returns
true. -/
theorem rdma_result_ignores_status {σ : Type} (tr : Substrate σ) (c : RDMAConnection σ)
    (bytes : List Byte) (remote_addr length rkey : Nat)
    (hpos : 0 < length) (hmax : length ≤ tr.MAX_BUFFER_SIZE) :
    (rdma_read tr c (LocalBuf.user bytes) remote_addr length rkey).1 = true ∧
    (rdma_write tr c (LocalBuf.user bytes) remote_addr length rkey).1 = true := by
  rw [rdma_read_accepted tr c bytes remote_addr length rkey hpos hmax,
    rdma_write_accepted tr c bytes remote_addr length rkey hpos hmax]
  exact ⟨rfl, rfl⟩

theorem elem_addr_eq (v : RDMAVector) (i : Nat) :
    RDMAReference.elem_addr { parent := v, index := i }
      = (v.remote_addr + i * 4) % UINT64_MOD := by
  unfold RDMAReference.elem_addr
  simp only [IntTy.sizeof, int_t]
  exact Nat.add_mod_mod _ _ _

theorem read_at_calls {σ : Type} (tr : Substrate σ) (v : RDMAVector) (i : Nat)
    (c : RDMAConnection σ) (hi : i < v.size) (hmax : 4 ≤ tr.MAX_BUFFER_SIZE) :
    (v.read_at tr i c).2.calls =
      c.calls ++ oneRead ((v.remote_addr + i * 4) % UINT64_MOD) v.rkey 4 := by
  unfold RDMAVector.read_at RDMAVector.index
  rw [if_neg (by omega)]
  simp only [RDMAReference.get, elem_addr_eq]
  have h4 : int_t.sizeof = 4 := rfl
  rw [h4, rdma_read_accepted tr c _ _ 4 _ (by decide) hmax]
  simp

theorem write_at_calls {σ : Type} (tr : Substrate σ) (v : RDMAVector) (i : Nat)
    (c : RDMAConnection σ) (x : Int) (hi : i < v.size) (hmax : 4 ≤ tr.MAX_BUFFER_SIZE) :
    (v.write_at tr i c x).2.calls =
      c.calls ++ oneWrite ((v.remote_addr + i * 4) % UINT64_MOD) v.rkey 4 := by
  unfold RDMAVector.write_at RDMAVector.index
  rw [if_neg (by omega)]
  simp only [RDMAReference.assign, elem_addr_eq]
  have h4 : int_t.sizeof = 4 := rfl
  rw [h4, rdma_write_accepted tr c _ _ 4 _ (by decide) hmax]
  simp

/-- C7: for a vector with base `b` and key `k` and an index `i < size`, on a substrate whose
`MAX_BUFFER_SIZE` admits an `int`: reading `array[i]` adds to the log of transport calls
exactly one posted READ with its completion wait, and `array[i] = x` exactly one posted WRITE
with its completion wait, each of `sizeof(int) = 4` bytes, with key `k` and address
`b + i * 4` computed in `uint64_t`; when that sum does not overflow the address is
`b + i * 4` itself. -/
theorem element_access_single_operation {σ : Type} (tr : Substrate σ) (v : RDMAVector)
    (i : Nat) (c : RDMAConnection σ) (x : Int)
    (hi : i < v.size) (hmax : int_t.sizeof ≤ tr.MAX_BUFFER_SIZE) :
    (v.read_at tr i c).2.calls =
      c.calls ++ oneRead ((v.remote_addr + i * int_t.sizeof) % UINT64_MOD) v.rkey int_t.sizeof ∧
    (v.write_at tr i c x).2.calls =
      c.calls ++ oneWrite ((v.remote_addr + i * int_t.sizeof) % UINT64_MOD) v.rkey int_t.sizeof ∧
    (v.remote_addr + i * int_t.sizeof < UINT64_MOD →
      (v.read_at tr i c).2.calls =
        c.calls ++ oneRead (v.remote_addr + i * int_t.sizeof) v.rkey int_t.sizeof ∧
      (v.write_at tr i c x).2.calls =
        c.calls ++ oneWrite (v.remote_addr + i * int_t.sizeof) v.rkey int_t.sizeof) := by
  have h4 : int_t.sizeof = 4 := rfl
  rw [h4] at hmax ⊢
  have hr := read_at_calls tr v i c hi hmax
  have hw := write_at_calls tr v i c x hi hmax
  refine ⟨hr, hw, ?_⟩
  intro h
  rw [hr, hw, Nat.mod_eq_of_lt h]
  exact ⟨rfl, rfl⟩

theorem element_access_single_operation_witness :
    (demoArray.read_at (idealSubstrate 16) 3 demoConn).2.calls =
      [TransportCall.post_operation rdma_op_t.OP_READ LocalBuf.null
         { qp_num := 0, gid := 0, addr := 4096 + 3 * 4, rkey := 7 } 4,
       TransportCall.wait_completion] ∧
    (demoArray.write_at (idealSubstrate 16) 3 demoConn 999).2.calls =
      [TransportCall.post_operation rdma_op_t.OP_WRITE LocalBuf.direct
         { qp_num := 0, gid := 0, addr := 4096 + 3 * 4, rkey := 7 } 4,
       TransportCall.wait_completion] :=
  (element_access_single_operation (idealSubstrate 16) demoArray 3 demoConn 999
    (by decide) (by decide)).2.2 (by decide)

/-! ## Bytes, memory and the integer types -/

theorem toBytes_length (k n : Nat) : (toBytes k n).length = k := by
  induction k generalizing n with
  | zero => rfl
  | succ k ih => simp [toBytes, ih]

theorem fromBytes_toBytes (k n : Nat) : fromBytes (toBytes k n) = n % 256 ^ k := by
  induction k generalizing n with
  | zero => simp [toBytes, fromBytes, Nat.mod_one]
  | succ k ih =>
    simp only [toBytes, fromBytes, ih]
    rw [pow_succ, Nat.mul_comm (256 ^ k) 256, Nat.mod_mul]

theorem load_length (mem : RemoteMem) (rkey addr n : Nat) :
    (load mem rkey addr n).length = n := by
  simp [load]

theorem load_store (mem : RemoteMem) (rkey addr n : Nat) (bytes : List Byte)
    (h : bytes.length = n) : load (store mem rkey addr bytes) rkey addr n = bytes := by
  apply List.ext_getElem
  · rw [load_length, h]
  · intro i h1 h2
    have hi : i < bytes.length := h2
    simp only [load, List.getElem_map, List.getElem_range, store]
    rw [if_pos ⟨trivial, by omega, by omega⟩]
    simp [List.getD_eq_getElem?_getD, hi]

theorem memcpy_take (dst src : List Byte) (n : Nat) (h : n ≤ src.length) :
    (memcpy dst src n).take n = src.take n := by
  unfold memcpy
  rw [List.take_append_of_le_length (by simp [h])]
  simp

theorem take_memcpy_append (dst src tail : List Byte) (n : Nat) (h : src.length = n) :
    (memcpy dst (src ++ tail) n).take n = src := by
  unfold memcpy
  rw [List.take_left' h]
  exact List.take_left' h

theorem memcpy_of_length (dst src : List Byte) (n : Nat) (h : src.length = n) :
    memcpy dst src n = src ++ dst.drop n := by
  unfold memcpy
  rw [← h, List.take_length]

theorem IntTy.sizeof_pos (T : IntTy) : 0 < T.sizeof := by
  unfold IntTy.sizeof
  cases T.width <;> decide

theorem IntTy.modulus_pos (T : IntTy) : 0 < T.modulus := by
  unfold IntTy.modulus
  positivity

theorem IntTy.to_bytes_length (T : IntTy) (v : Int) : (T.to_bytes v).length = T.sizeof := by
  unfold IntTy.to_bytes
  exact toBytes_length _ _

theorem IntTy.wrap_congr (T : IntTy) (a b : Int)
    (h : a % (T.modulus : Int) = b % (T.modulus : Int)) : T.wrap a = T.wrap b := by
  unfold IntTy.wrap
  rw [h]

theorem IntTy.wrap_emod (T : IntTy) (z : Int) :
    T.wrap z % (T.modulus : Int) = z % (T.modulus : Int) := by
  unfold IntTy.wrap
  simp only
  split
  · rw [Int.sub_emod, Int.emod_self, sub_zero, Int.emod_emod, Int.emod_emod]
  · rw [Int.emod_emod]

theorem IntTy.wrap_of_representable (T : IntTy) (z : Int) (h : T.representable z) :
    T.wrap z = z := by
  have hm : (0 : Int) < T.modulus := by exact_mod_cast T.modulus_pos
  unfold IntTy.representable at h
  unfold IntTy.wrap
  simp only
  by_cases hs : T.signed = true
  · rw [if_pos hs] at h
    by_cases hz : 0 ≤ z
    · have e : z % (T.modulus : Int) = z := Int.emod_eq_of_lt hz (by omega)
      rw [e, if_neg (by omega)]
    · have e : z % (T.modulus : Int) = z + T.modulus := by
        rw [← Int.add_emod_self]
        exact Int.emod_eq_of_lt (by omega) (by omega)
      rw [e, if_pos ⟨hs, by omega⟩]
      omega
  · rw [if_neg hs] at h
    have e : z % (T.modulus : Int) = z := Int.emod_eq_of_lt h.1 h.2
    rw [e, if_neg (fun hc => hs hc.1)]

theorem IntTy.wrap_representable (T : IntTy) (z : Int) : T.representable (T.wrap z) := by
  have hm : (0 : Int) < T.modulus := by exact_mod_cast T.modulus_pos
  have h0 : 0 ≤ z % (T.modulus : Int) := Int.emod_nonneg _ (by omega)
  have h1 : z % (T.modulus : Int) < T.modulus := Int.emod_lt_of_pos _ hm
  unfold IntTy.representable IntTy.wrap
  simp only
  by_cases hs : T.signed = true
  · rw [if_pos hs]
    by_cases hc : (T.modulus : Int) ≤ 2 * (z % (T.modulus : Int))
    · rw [if_pos ⟨hs, hc⟩]
      omega
    · rw [if_neg (fun h => hc h.2)]
      omega
  · rw [if_neg hs, if_neg (fun h => hs h.1)]
    exact ⟨h0, h1⟩

theorem IntTy.of_bytes_to_bytes (T : IntTy) (v : Int) :
    T.of_bytes (T.to_bytes v) = T.wrap v := by
  have hm : (0 : Int) < T.modulus := by exact_mod_cast T.modulus_pos
  have h0 : 0 ≤ v % (T.modulus : Int) := Int.emod_nonneg _ (by omega)
  have h1 : v % (T.modulus : Int) < T.modulus := Int.emod_lt_of_pos _ hm
  unfold IntTy.of_bytes
  rw [← T.to_bytes_length v, List.take_length]
  unfold IntTy.to_bytes
  rw [fromBytes_toBytes]
  apply T.wrap_congr
  have e : ((v % (T.modulus : Int)).toNat % 256 ^ T.sizeof : Nat) = (v % (T.modulus : Int)).toNat := by
    apply Nat.mod_eq_of_lt
    have : (v % (T.modulus : Int)).toNat < T.modulus := by omega
    exact this
  rw [e, Int.toNat_of_nonneg h0, Int.emod_emod]

/-! ## The proxies over the ideal substrate -/

/-- The connection after one read of `n` bytes at `(rkey, addr)` on the ideal substrate. -/
theorem rdma_read_ideal (max : Nat) (c : RDMAConnection RemoteMem) (bytes : List Byte)
    (addr n rkey : Nat) (hpos : 0 < n) (hmax : n ≤ max) :
    rdma_read (idealSubstrate max) c (LocalBuf.user bytes) addr n rkey =
      (true,
        LocalBuf.user (load c.config_.hw rkey addr n ++ bytes.drop n),
        { c with
          config_ :=
            { c.config_ with buf := load c.config_.hw rkey addr n ++ c.config_.buf.drop n }
          calls := c.calls ++ oneRead addr rkey n }) := by
  have hl := load_length c.config_.hw rkey addr n
  rw [rdma_read_accepted (idealSubstrate max) c bytes addr n rkey hpos hmax]
  simp only [idealSubstrate, memcpy_of_length _ _ n hl]
  rw [memcpy, List.take_append_of_le_length (by omega), List.take_of_length_le (by omega)]

/-- The connection after one write of `n` bytes at `(rkey, addr)` on the ideal substrate. -/
theorem rdma_write_ideal (max : Nat) (c : RDMAConnection RemoteMem) (bytes : List Byte)
    (addr n rkey : Nat) (hpos : 0 < n) (hmax : n ≤ max) (hlen : bytes.length = n) :
    rdma_write (idealSubstrate max) c (LocalBuf.user bytes) addr n rkey =
      (true,
        { c with
          config_ :=
            { buf := bytes ++ c.config_.buf.drop n
              hw := store c.config_.hw rkey addr bytes }
          calls := c.calls ++ oneWrite addr rkey n }) := by
  rw [rdma_write_accepted (idealSubstrate max) c bytes addr n rkey hpos hmax]
  simp only [idealSubstrate, memcpy_of_length _ _ n hlen]
  rw [List.take_append_of_le_length (by omega), ← hlen, List.take_length]

theorem get_ideal {α : Type} (max : Nat) (T : CType α) (p : RDMAVariable)
    (c : RDMAConnection RemoteMem) (hpos : 0 < T.sizeof) (hmax : T.sizeof ≤ max) :
    p.get (idealSubstrate max) T c =
      (Except.ok (T.of_bytes (load c.config_.hw p.rkey p.remote_addr T.sizeof ++
          (T.to_bytes T.zero).drop T.sizeof)),
        { c with
          config_ :=
            { c.config_ with
              buf := load c.config_.hw p.rkey p.remote_addr T.sizeof ++
                c.config_.buf.drop T.sizeof }
          calls := c.calls ++ oneRead p.remote_addr p.rkey T.sizeof }) := by
  unfold RDMAVariable.get
  simp only [rdma_read_ideal max c _ p.remote_addr T.sizeof p.rkey hpos hmax]
  simp [LocalBuf.contents]

theorem assign_ideal {α : Type} (max : Nat) (T : CType α) (p : RDMAVariable)
    (c : RDMAConnection RemoteMem) (v : α) (hpos : 0 < T.sizeof) (hmax : T.sizeof ≤ max)
    (hlen : (T.to_bytes v).length = T.sizeof) :
    p.assign (idealSubstrate max) T c v =
      (Except.ok p,
        { c with
          config_ :=
            { buf := T.to_bytes v ++ c.config_.buf.drop T.sizeof
              hw := store c.config_.hw p.rkey p.remote_addr (T.to_bytes v) }
          calls := c.calls ++ oneWrite p.remote_addr p.rkey T.sizeof }) := by
  unfold RDMAVariable.assign
  simp only [rdma_write_ideal max c _ p.remote_addr T.sizeof p.rkey hpos hmax hlen]
  simp

/-- A read that fails the argument check throws and leaves the connection as it was. -/
theorem get_rejected {σ α : Type} (tr : Substrate σ) (T : CType α) (p : RDMAVariable)
    (c : RDMAConnection σ) (h : T.sizeof = 0 ∨ T.sizeof > tr.MAX_BUFFER_SIZE) :
    p.get tr T c = (Except.error (Exn.runtime_error "RDMA read operation failed"), c) := by
  unfold RDMAVariable.get
  simp only [rdma_read_rejected tr c _ p.remote_addr T.sizeof p.rkey (Or.inr h)]
  simp

theorem update_rejected {σ α : Type} (tr : Substrate σ) (T : CType α) (p : RDMAVariable)
    (c : RDMAConnection σ) (f : α → α) (h : T.sizeof = 0 ∨ T.sizeof > tr.MAX_BUFFER_SIZE) :
    p.update tr T c f = (Except.error (Exn.runtime_error "RDMA read operation failed"), c) := by
  unfold RDMAVariable.update
  rw [get_rejected tr T p c h]

/-- C4: over the ideal substrate (a WRITE copies `length` bytes of the working buffer to
remote memory at (address, key), a READ copies them back into the working buffer), for
`0 < length <= MAX_BUFFER_SIZE` and non-null buffers `buf` (holding at least `length`
bytes) and `buf2`: `rdma_write(buf, address, length, key)` followed by
`rdma_read(buf2, address, length, key)` both return true, and the first `length` bytes of
`buf2` afterwards are the first `length` bytes of `buf`. -/
theorem write_then_read_round_trip (max : Nat) (c : RDMAConnection RemoteMem)
    (buf buf2 : LocalBuf) (address length key : Nat)
    (hpos : 0 < length) (hmax : length ≤ max)
    (hbuf : buf ≠ LocalBuf.null) (hbuf2 : buf2 ≠ LocalBuf.null)
    (hsize : length ≤ (buf.contents c).length) :
    (rdma_write (idealSubstrate max) c buf address length key).1 = true ∧
    (rdma_read (idealSubstrate max) (rdma_write (idealSubstrate max) c buf address length key).2
      buf2 address length key).1 = true ∧
    ((rdma_read (idealSubstrate max) (rdma_write (idealSubstrate max) c buf address length key).2
      buf2 address length key).2.1.contents
      (rdma_read (idealSubstrate max) (rdma_write (idealSubstrate max) c buf address length key).2
        buf2 address length key).2.2).take length = (buf.contents c).take length := by
  have hm : length ≤ (idealSubstrate max).MAX_BUFFER_SIZE := hmax
  have htake : ((buf.contents c).take length).length = length := by
    rw [List.length_take]
    omega
  have key1 : ∀ (w : List Byte) (mem : RemoteMem),
      w.take length = (buf.contents c).take length →
      (memcpy w (load (store mem key address (w.take length)) key address length)
        length).take length = (buf.contents c).take length := by
    intro w mem hw
    rw [hw, load_store _ _ _ _ _ htake, memcpy_take _ _ _ (by omega), List.take_take,
      Nat.min_self]
  have key2 : ∀ (w rest : List Byte) (mem : RemoteMem),
      w.take length = (buf.contents c).take length →
      (memcpy rest (memcpy w (load (store mem key address (w.take length)) key address length)
        length) length).take length = (buf.contents c).take length := by
    intro w rest mem hw
    rw [hw, load_store _ _ _ _ _ htake, memcpy_of_length _ _ _ htake]
    exact take_memcpy_append _ _ _ _ htake
  cases buf with
  | null => exact absurd rfl hbuf
  | direct =>
    rw [rdma_write_accepted_direct _ c address length key hpos hm]
    cases buf2 with
    | null => exact absurd rfl hbuf2
    | direct =>
      rw [rdma_read_accepted_direct _ _ address length key hpos hm]
      refine ⟨rfl, rfl, ?_⟩
      exact key1 c.config_.buf c.config_.hw rfl
    | user bs2 =>
      rw [rdma_read_accepted _ _ bs2 address length key hpos hm]
      refine ⟨rfl, rfl, ?_⟩
      exact key2 c.config_.buf bs2 c.config_.hw rfl
  | user bs =>
    have hbs : (memcpy c.config_.buf bs length).take length = bs.take length :=
      memcpy_take _ _ _ hsize
    rw [rdma_write_accepted _ c bs address length key hpos hm]
    cases buf2 with
    | null => exact absurd rfl hbuf2
    | direct =>
      rw [rdma_read_accepted_direct _ _ address length key hpos hm]
      refine ⟨rfl, rfl, ?_⟩
      exact key1 (memcpy c.config_.buf bs length) c.config_.hw hbs
    | user bs2 =>
      rw [rdma_read_accepted _ _ bs2 address length key hpos hm]
      refine ⟨rfl, rfl, ?_⟩
      exact key2 (memcpy c.config_.buf bs length) bs2 c.config_.hw hbs

theorem write_then_read_round_trip_witness :
    ((rdma_read (idealSubstrate 16)
        (rdma_write (idealSubstrate 16) demoConn (LocalBuf.user (int_t.to_bytes 999))
          (demoBase + 12) 4 demoKey).2
        (LocalBuf.user (int_t.to_bytes 0)) (demoBase + 12) 4 demoKey).2.1.contents
      (rdma_read (idealSubstrate 16)
        (rdma_write (idealSubstrate 16) demoConn (LocalBuf.user (int_t.to_bytes 999))
          (demoBase + 12) 4 demoKey).2
        (LocalBuf.user (int_t.to_bytes 0)) (demoBase + 12) 4 demoKey).2.2).take 4
      = ((LocalBuf.user (int_t.to_bytes 999)).contents demoConn).take 4 :=
  (write_then_read_round_trip 16 demoConn (LocalBuf.user (int_t.to_bytes 999))
    (LocalBuf.user (int_t.to_bytes 0)) (demoBase + 12) 4 demoKey
    (by decide) (by decide) (by decide) (by decide) (by decide)).2.2

/-- An assignment followed by a read on the ideal substrate: the assignment succeeds and the
read decodes the bytes the assignment encoded. -/
theorem assign_get_ideal {α : Type} (max : Nat) (T : CType α)
    (p : RDMAVariable) (c : RDMAConnection RemoteMem) (v : α)
    (hpos : 0 < T.sizeof) (hmax : T.sizeof ≤ max)
    (hlen : ∀ u : α, (T.to_bytes u).length = T.sizeof) :
    (p.assign (idealSubstrate max) T c v).1 = Except.ok p ∧
    (p.get (idealSubstrate max) T (p.assign (idealSubstrate max) T c v).2).1
      = Except.ok (T.of_bytes (T.to_bytes v)) := by
  rw [assign_ideal max T p c v hpos hmax (hlen v), get_ideal max T p _ hpos hmax]
  refine ⟨rfl, ?_⟩
  simp only [load_store _ _ _ _ _ (hlen v)]
  rw [List.drop_of_length_le (by rw [hlen T.zero]), List.append_nil]

/-- C5: over the ideal substrate, for a type `T` whose object representation has `sizeof(T)`
bytes with `sizeof(T) <= MAX_BUFFER_SIZE`, and a value `v` of `T` (one its representation
determines): the assignment `proxy = v` succeeds and the materialization `T r = proxy` that
follows yields `r == v`. -/
theorem assign_then_read_returns_value {α : Type} (max : Nat) (T : CType α)
    (p : RDMAVariable) (c : RDMAConnection RemoteMem) (v : α)
    (hpos : 0 < T.sizeof) (hmax : T.sizeof ≤ max)
    (hlen : ∀ u : α, (T.to_bytes u).length = T.sizeof)
    (hv : T.of_bytes (T.to_bytes v) = v) :
    (p.assign (idealSubstrate max) T c v).1 = Except.ok p ∧
    (p.get (idealSubstrate max) T (p.assign (idealSubstrate max) T c v).2).1 = Except.ok v := by
  obtain ⟨h1, h2⟩ := assign_get_ideal max T p c v hpos hmax hlen
  rw [hv] at h2
  exact ⟨h1, h2⟩

theorem assign_then_read_returns_value_witness :
    (demoCounter.get (idealSubstrate 16) int_t.ctype
      (demoCounter.assign (idealSubstrate 16) int_t.ctype demoConn (-5)).2).1 = Except.ok (-5) :=
  (assign_then_read_returns_value 16 int_t.ctype demoCounter demoConn (-5)
    (by decide) (by decide) (fun u => int_t.to_bytes_length u) (by decide)).2

/-- The integer instance: every representable value of an integer type is read back, and any
other integer is read back converted to the type. -/
theorem assign_then_read_integer (max : Nat) (T : IntTy) (p : RDMAVariable)
    (c : RDMAConnection RemoteMem) (v : Int) (hmax : T.sizeof ≤ max) :
    (p.get (idealSubstrate max) T.ctype (p.assign (idealSubstrate max) T.ctype c v).2).1
      = Except.ok (T.wrap v) ∧
    (T.representable v →
      (p.get (idealSubstrate max) T.ctype (p.assign (idealSubstrate max) T.ctype c v).2).1
        = Except.ok v) := by
  have h := (assign_get_ideal max T.ctype p c v T.sizeof_pos hmax
    (fun u => T.to_bytes_length u)).2
  have e : T.ctype.of_bytes (T.ctype.to_bytes v) = T.wrap v := T.of_bytes_to_bytes v
  rw [e] at h
  refine ⟨h, fun hv => ?_⟩
  rw [h, T.wrap_of_representable v hv]

/-- A read on the ideal substrate leaves remote memory as it is. -/
theorem get_ideal_hw {α : Type} (max : Nat) (T : CType α) (p : RDMAVariable)
    (c : RDMAConnection RemoteMem) :
    (p.get (idealSubstrate max) T c).2.config_.hw = c.config_.hw := by
  by_cases h : T.sizeof = 0 ∨ T.sizeof > max
  · rw [get_rejected (idealSubstrate max) T p c h]
  · rw [get_ideal max T p c (by omega) (by omega)]

/-- Two reads in a row on the ideal substrate return the same. -/
theorem get_ideal_twice {α : Type} (max : Nat) (T : CType α) (p : RDMAVariable)
    (c : RDMAConnection RemoteMem) :
    (p.get (idealSubstrate max) T (p.get (idealSubstrate max) T c).2).1 =
      (p.get (idealSubstrate max) T c).1 := by
  by_cases h : T.sizeof = 0 ∨ T.sizeof > max
  · rw [get_rejected (idealSubstrate max) T p c h, get_rejected (idealSubstrate max) T p c h]
  · rw [get_ideal max T p c (by omega) (by omega), get_ideal max T p _ (by omega) (by omega)]

/-- C6: for every type, proxy, substrate and connection, `proxy /= v` with `v == 0` throws
the domain error and returns the connection as it was: no transport call is logged, and the
substrate state, remote memory included, is untouched. On the ideal substrate a read before
the failed call and a read after it return the same. -/
theorem division_by_zero_guard {σ α : Type} (tr : Substrate σ) (max : Nat) (T : CType α)
    (p : RDMAVariable) (c : RDMAConnection σ) (ci : RDMAConnection RemoteMem) (v : α)
    (hz : T.is_zero v = true) :
    p.div_assign tr T c v = (Except.error (Exn.domain_error "Division by zero"), c) ∧
    (p.div_assign tr T c v).2.calls = c.calls ∧
    (p.get (idealSubstrate max) T
      (p.div_assign (idealSubstrate max) T (p.get (idealSubstrate max) T ci).2 v).2).1 =
      (p.get (idealSubstrate max) T ci).1 := by
  have h : ∀ {τ : Type} (t : Substrate τ) (d : RDMAConnection τ),
      p.div_assign t T d v = (Except.error (Exn.domain_error "Division by zero"), d) := by
    intro τ t d
    unfold RDMAVariable.div_assign
    rw [if_pos hz]
  refine ⟨h tr c, ?_, ?_⟩
  · rw [h tr c]
  · rw [h (idealSubstrate max)]
    exact get_ideal_twice max T p ci

theorem division_by_zero_guard_witness :
    demoCounter.div_assign (idealSubstrate 16) int_t.ctype demoConn 0 =
      (Except.error (Exn.domain_error "Division by zero"), demoConn) :=
  (division_by_zero_guard (idealSubstrate 16) 16 int_t.ctype demoCounter demoConn demoConn 0
    (by decide)).1

/-! ## Read-modify-write on integer types -/

theorem IntTy.wrap_wrap (T : IntTy) (z : Int) : T.wrap (T.wrap z) = T.wrap z :=
  T.wrap_of_representable _ (T.wrap_representable z)

theorem IntTy.wrap_add_wrap (T : IntTy) (a b : Int) : T.wrap (T.wrap a + b) = T.wrap (a + b) := by
  apply T.wrap_congr
  rw [Int.add_emod, T.wrap_emod, ← Int.add_emod]

theorem remoteValue_representable (T : IntTy) (mem : RemoteMem) (rkey addr : Nat) :
    T.representable (remoteValue T mem rkey addr) :=
  T.wrap_representable _

theorem remoteValue_store (T : IntTy) (mem : RemoteMem) (rkey addr : Nat) (v : Int) :
    remoteValue T (store mem rkey addr (T.to_bytes v)) rkey addr = T.wrap v := by
  unfold remoteValue
  rw [load_store _ _ _ _ _ (T.to_bytes_length v), T.of_bytes_to_bytes]

/-- On the ideal substrate a read of an integer proxy returns the remote value. -/
theorem get_int_value (max : Nat) (T : IntTy) (p : RDMAVariable)
    (c : RDMAConnection RemoteMem) (hmax : T.sizeof ≤ max) :
    (p.get (idealSubstrate max) T.ctype c).1 =
      Except.ok (remoteValue T c.config_.hw p.rkey p.remote_addr) := by
  rw [get_ideal max T.ctype p c T.sizeof_pos hmax]
  have e : ((T.ctype).to_bytes (T.ctype).zero).drop (T.ctype).sizeof = [] :=
    List.drop_of_length_le (by
      show (T.to_bytes 0).length ≤ T.sizeof
      rw [T.to_bytes_length])
  simp only [e, List.append_nil]
  rfl

/-- On the ideal substrate, the members of shape read-modify-write on an integer proxy
succeed, leave `f x` in remote memory where `x` was, and log one read then one write. -/
theorem update_int (max : Nat) (T : IntTy) (p : RDMAVariable) (c : RDMAConnection RemoteMem)
    (f : Int → Int) (hmax : T.sizeof ≤ max) :
    (p.update (idealSubstrate max) T.ctype c f).1 = Except.ok p ∧
    (p.update (idealSubstrate max) T.ctype c f).2.config_.hw =
      store c.config_.hw p.rkey p.remote_addr
        (T.to_bytes (f (remoteValue T c.config_.hw p.rkey p.remote_addr))) ∧
    (p.update (idealSubstrate max) T.ctype c f).2.calls =
      c.calls ++ oneRead p.remote_addr p.rkey T.sizeof ++ oneWrite p.remote_addr p.rkey T.sizeof := by
  have hv := get_int_value max T p c hmax
  have hg := get_ideal max T.ctype p c T.sizeof_pos hmax
  rw [hg] at hv
  have hval := Except.ok.inj hv
  unfold RDMAVariable.update
  rw [hg]
  simp only [hval]
  rw [assign_ideal max T.ctype p _ _ T.sizeof_pos hmax (T.to_bytes_length _)]
  exact ⟨rfl, rfl, rfl⟩

theorem post_inc_int (max : Nat) (T : IntTy) (p : RDMAVariable) (c : RDMAConnection RemoteMem)
    (hmax : T.sizeof ≤ max) :
    (p.post_inc (idealSubstrate max) T.ctype c).1 =
      Except.ok (remoteValue T c.config_.hw p.rkey p.remote_addr) ∧
    (p.post_inc (idealSubstrate max) T.ctype c).2.config_.hw =
      store c.config_.hw p.rkey p.remote_addr
        (T.to_bytes (T.wrap (remoteValue T c.config_.hw p.rkey p.remote_addr + 1))) ∧
    (p.post_inc (idealSubstrate max) T.ctype c).2.calls =
      c.calls ++ oneRead p.remote_addr p.rkey T.sizeof ++ oneWrite p.remote_addr p.rkey T.sizeof := by
  have hv := get_int_value max T p c hmax
  have hg := get_ideal max T.ctype p c T.sizeof_pos hmax
  rw [hg] at hv
  have hval := Except.ok.inj hv
  unfold RDMAVariable.post_inc
  rw [hg]
  simp only [hval]
  rw [assign_ideal max T.ctype p _ _ T.sizeof_pos hmax (T.to_bytes_length _)]
  exact ⟨rfl, rfl, rfl⟩

theorem post_dec_int (max : Nat) (T : IntTy) (p : RDMAVariable) (c : RDMAConnection RemoteMem)
    (hmax : T.sizeof ≤ max) :
    (p.post_dec (idealSubstrate max) T.ctype c).1 =
      Except.ok (remoteValue T c.config_.hw p.rkey p.remote_addr) ∧
    (p.post_dec (idealSubstrate max) T.ctype c).2.config_.hw =
      store c.config_.hw p.rkey p.remote_addr
        (T.to_bytes (T.wrap (remoteValue T c.config_.hw p.rkey p.remote_addr - 1))) ∧
    (p.post_dec (idealSubstrate max) T.ctype c).2.calls =
      c.calls ++ oneRead p.remote_addr p.rkey T.sizeof ++ oneWrite p.remote_addr p.rkey T.sizeof := by
  have hv := get_int_value max T p c hmax
  have hg := get_ideal max T.ctype p c T.sizeof_pos hmax
  rw [hg] at hv
  have hval := Except.ok.inj hv
  unfold RDMAVariable.post_dec
  rw [hg]
  simp only [hval]
  rw [assign_ideal max T.ctype p _ _ T.sizeof_pos hmax (T.to_bytes_length _)]
  exact ⟨rfl, rfl, rfl⟩

/-- C8: over the ideal substrate, for an integer type `T` with `sizeof(T) <= MAX_BUFFER_SIZE`
and a proxy whose remote value is `x`: post-increment returns `x` and leaves `x + 1`,
post-decrement returns `x` and leaves `x - 1`, each logging exactly one read then one write;
pre-increment and pre-decrement return the proxy, log exactly one read then one write, and a
materialization that follows yields `x + 1` and `x - 1`. The sums are those of the type `T`
(the exact result converted to `T`), hence `x + 1` and `x - 1` themselves whenever these are
values of `T`. -/
theorem increment_decrement (max : Nat) (T : IntTy) (p : RDMAVariable)
    (c : RDMAConnection RemoteMem) (x : Int) (hmax : T.sizeof ≤ max)
    (hx : remoteValue T c.config_.hw p.rkey p.remote_addr = x) :
    ((p.post_inc (idealSubstrate max) T.ctype c).1 = Except.ok x ∧
      remoteValue T (p.post_inc (idealSubstrate max) T.ctype c).2.config_.hw p.rkey p.remote_addr
        = T.wrap (x + 1) ∧
      (p.post_inc (idealSubstrate max) T.ctype c).2.calls =
        c.calls ++ oneRead p.remote_addr p.rkey T.sizeof ++
          oneWrite p.remote_addr p.rkey T.sizeof) ∧
    ((p.post_dec (idealSubstrate max) T.ctype c).1 = Except.ok x ∧
      remoteValue T (p.post_dec (idealSubstrate max) T.ctype c).2.config_.hw p.rkey p.remote_addr
        = T.wrap (x - 1) ∧
      (p.post_dec (idealSubstrate max) T.ctype c).2.calls =
        c.calls ++ oneRead p.remote_addr p.rkey T.sizeof ++
          oneWrite p.remote_addr p.rkey T.sizeof) ∧
    ((p.pre_inc (idealSubstrate max) T.ctype c).1 = Except.ok p ∧
      (p.get (idealSubstrate max) T.ctype (p.pre_inc (idealSubstrate max) T.ctype c).2).1
        = Except.ok (T.wrap (x + 1)) ∧
      (p.pre_inc (idealSubstrate max) T.ctype c).2.calls =
        c.calls ++ oneRead p.remote_addr p.rkey T.sizeof ++
          oneWrite p.remote_addr p.rkey T.sizeof) ∧
    ((p.pre_dec (idealSubstrate max) T.ctype c).1 = Except.ok p ∧
      (p.get (idealSubstrate max) T.ctype (p.pre_dec (idealSubstrate max) T.ctype c).2).1
        = Except.ok (T.wrap (x - 1)) ∧
      (p.pre_dec (idealSubstrate max) T.ctype c).2.calls =
        c.calls ++ oneRead p.remote_addr p.rkey T.sizeof ++
          oneWrite p.remote_addr p.rkey T.sizeof) ∧
    (T.representable (x + 1) →
      remoteValue T (p.post_inc (idealSubstrate max) T.ctype c).2.config_.hw p.rkey p.remote_addr
        = x + 1 ∧
      (p.get (idealSubstrate max) T.ctype (p.pre_inc (idealSubstrate max) T.ctype c).2).1
        = Except.ok (x + 1)) ∧
    (T.representable (x - 1) →
      remoteValue T (p.post_dec (idealSubstrate max) T.ctype c).2.config_.hw p.rkey p.remote_addr
        = x - 1 ∧
      (p.get (idealSubstrate max) T.ctype (p.pre_dec (idealSubstrate max) T.ctype c).2).1
        = Except.ok (x - 1)) := by
  obtain ⟨i1, i2, i3⟩ := post_inc_int max T p c hmax
  obtain ⟨d1, d2, d3⟩ := post_dec_int max T p c hmax
  obtain ⟨a1, a2, a3⟩ := update_int max T p c (fun value => T.ctype.add value T.ctype.one) hmax
  obtain ⟨s1, s2, s3⟩ := update_int max T p c (fun value => T.ctype.sub value T.ctype.one) hmax
  rw [hx] at i1 i2 d1 d2 a2 s2
  have hpi : remoteValue T (p.post_inc (idealSubstrate max) T.ctype c).2.config_.hw
      p.rkey p.remote_addr = T.wrap (x + 1) := by
    rw [i2, remoteValue_store, T.wrap_wrap]
  have hpd : remoteValue T (p.post_dec (idealSubstrate max) T.ctype c).2.config_.hw
      p.rkey p.remote_addr = T.wrap (x - 1) := by
    rw [d2, remoteValue_store, T.wrap_wrap]
  have hri : (p.get (idealSubstrate max) T.ctype (p.pre_inc (idealSubstrate max) T.ctype c).2).1
      = Except.ok (T.wrap (x + 1)) := by
    rw [get_int_value max T p _ hmax]
    unfold RDMAVariable.pre_inc
    rw [a2, remoteValue_store]
    exact congrArg Except.ok (T.wrap_wrap (x + 1))
  have hrd : (p.get (idealSubstrate max) T.ctype (p.pre_dec (idealSubstrate max) T.ctype c).2).1
      = Except.ok (T.wrap (x - 1)) := by
    rw [get_int_value max T p _ hmax]
    unfold RDMAVariable.pre_dec
    rw [s2, remoteValue_store]
    exact congrArg Except.ok (T.wrap_wrap (x - 1))
  refine ⟨⟨i1, hpi, i3⟩, ⟨d1, hpd, d3⟩, ⟨a1, hri, a3⟩, ⟨s1, hrd, s3⟩, ?_, ?_⟩
  · intro h
    rw [hpi, hri, T.wrap_of_representable _ h]
    exact ⟨rfl, rfl⟩
  · intro h
    rw [hpd, hrd, T.wrap_of_representable _ h]
    exact ⟨rfl, rfl⟩

theorem increment_decrement_witness :
    (demoCounter.post_inc (idealSubstrate 16) int_t.ctype demoConn).1 = Except.ok 42 ∧
    remoteValue int_t (demoCounter.post_inc (idealSubstrate 16) int_t.ctype demoConn).2.config_.hw
      demoCounter.rkey demoCounter.remote_addr = 42 + 1 :=
  ⟨(increment_decrement 16 int_t demoCounter demoConn 42 (by decide) (by decide)).1.1,
   ((increment_decrement 16 int_t demoCounter demoConn 42 (by decide) (by decide)).2.2.2.2.1
      (by decide)).1⟩

/-- C9: over the ideal substrate, for an integer type `T` and a proxy whose remote value is
`x`: after `proxy += 0` the remote value is `x`, and for every `v`, after `proxy -= v`
followed by `proxy += v` the remote value is `x`; when `sizeof(T) <= MAX_BUFFER_SIZE` the
three updates succeed. -/
theorem compound_update_identities (max : Nat) (T : IntTy) (p : RDMAVariable)
    (c : RDMAConnection RemoteMem) (x v : Int)
    (hx : remoteValue T c.config_.hw p.rkey p.remote_addr = x) :
    remoteValue T (p.add_assign (idealSubstrate max) T.ctype c 0).2.config_.hw
      p.rkey p.remote_addr = x ∧
    remoteValue T (p.add_assign (idealSubstrate max) T.ctype
      (p.sub_assign (idealSubstrate max) T.ctype c v).2 v).2.config_.hw
      p.rkey p.remote_addr = x ∧
    (T.sizeof ≤ max →
      (p.add_assign (idealSubstrate max) T.ctype c 0).1 = Except.ok p ∧
      (p.sub_assign (idealSubstrate max) T.ctype c v).1 = Except.ok p ∧
      (p.add_assign (idealSubstrate max) T.ctype
        (p.sub_assign (idealSubstrate max) T.ctype c v).2 v).1 = Except.ok p) := by
  have hrep : T.representable x := hx ▸ remoteValue_representable T _ _ _
  unfold RDMAVariable.add_assign RDMAVariable.sub_assign
  by_cases hmax : T.sizeof ≤ max
  · obtain ⟨z1, z2, _⟩ := update_int max T p c (fun current => T.ctype.add current 0) hmax
    obtain ⟨s1, s2, _⟩ := update_int max T p c (fun current => T.ctype.sub current v) hmax
    obtain ⟨a1, a2, _⟩ := update_int max T p
      (p.update (idealSubstrate max) T.ctype c (fun current => T.ctype.sub current v)).2
      (fun current => T.ctype.add current v) hmax
    refine ⟨?_, ?_, fun _ => ⟨z1, s1, a1⟩⟩
    · rw [z2, remoteValue_store, hx]
      show T.wrap (T.wrap (x + 0)) = x
      rw [add_zero, T.wrap_wrap, T.wrap_of_representable x hrep]
    · rw [a2, remoteValue_store, s2, remoteValue_store, hx]
      show T.wrap (T.wrap (T.wrap (T.wrap (x - v)) + v)) = x
      rw [T.wrap_wrap, T.wrap_wrap, T.wrap_add_wrap, sub_add_cancel,
        T.wrap_of_representable x hrep]
  · have hrej : T.ctype.sizeof = 0 ∨ T.ctype.sizeof > (idealSubstrate max).MAX_BUFFER_SIZE :=
      Or.inr (Nat.lt_of_not_le hmax)
    have e : ∀ (d : RDMAConnection RemoteMem) (f : Int → Int),
        p.update (idealSubstrate max) T.ctype d f =
          (Except.error (Exn.runtime_error "RDMA read operation failed"), d) :=
      fun d f => update_rejected (idealSubstrate max) T.ctype p d f hrej
    simp only [e]
    exact ⟨hx, hx, fun h => absurd h hmax⟩

theorem compound_update_identities_witness :
    remoteValue int_t (demoCounter.add_assign (idealSubstrate 16) int_t.ctype
      (demoCounter.sub_assign (idealSubstrate 16) int_t.ctype demoConn 10).2 10).2.config_.hw
      demoCounter.rkey demoCounter.remote_addr = 42 ∧
    (demoCounter.add_assign (idealSubstrate 16) int_t.ctype demoConn 0).1
      = Except.ok demoCounter :=
  ⟨(compound_update_identities 16 int_t demoCounter demoConn 42 10 (by decide)).2.1,
   ((compound_update_identities 16 int_t demoCounter demoConn 42 10 (by decide)).2.2
      (by decide)).1⟩

/-! ## The example client on the example memory -/

/-- The values observed by the example client on the example memory. -/
theorem client_function_result :
    (client_function (idealSubstrate 16) demoConn).1 = Except.ok
      { counter_initial := 42
        array_initial := [0, 10, 20, 30, 40, 50, 60, 70, 80, 90]
        increment_result := 42
        counter_after_increment := 43
        counter_after_add := 53
        element_read := 20
        element_written := 40
        counter_final := 53
        array_final := [0, 10, 20, 999, 40, 40, 60, 70, 80, 90] } := by
  decide

/-- The transport calls of the example client, in the order they are made. -/
theorem client_function_calls :
    (client_function (idealSubstrate 16) demoConn).2.calls =
      oneRead (demoBase + 40) demoKey 4 ++
      (List.range 10).flatMap (fun i => oneRead (demoBase + i * 4) demoKey 4) ++
      (oneRead (demoBase + 40) demoKey 4 ++ oneWrite (demoBase + 40) demoKey 4) ++
      oneRead (demoBase + 40) demoKey 4 ++
      (oneRead (demoBase + 40) demoKey 4 ++ oneWrite (demoBase + 40) demoKey 4) ++
      oneRead (demoBase + 40) demoKey 4 ++
      oneWrite (demoBase + 3 * 4) demoKey 4 ++
      (oneRead (demoBase + 2 * 4) demoKey 4 ++ oneWrite (demoBase + 5 * 4) demoKey 4) ++
      oneRead (demoBase + 40) demoKey 4 ++
      (List.range 10).flatMap (fun i => oneRead (demoBase + i * 4) demoKey 4) := by
  decide

/-- The remote memory the example client leaves behind. -/
theorem client_function_memory :
    (List.range 10).map (fun i =>
      remoteValue int_t (client_function (idealSubstrate 16) demoConn).2.config_.hw
        demoKey (demoBase + i * 4)) = [0, 10, 20, 999, 40, 40, 60, 70, 80, 90] ∧
    remoteValue int_t (client_function (idealSubstrate 16) demoConn).2.config_.hw
      demoKey (demoBase + 40) = 53 := by
  decide

/-- C11, as stated: the final read of elements 0..9 in the example run is not
`{0,10,20,999,40,40,50,60,70,80}`; it is `{0,10,20,999,40,40,60,70,80,90}`. -/
theorem claimed_final_array_refuted :
    Except.map ClientRun.array_final (client_function (idealSubstrate 16) demoConn).1
      = Except.ok [0, 10, 20, 999, 40, 40, 60, 70, 80, 90] ∧
    Except.map ClientRun.array_final (client_function (idealSubstrate 16) demoConn).1
      ≠ Except.ok [0, 10, 20, 999, 40, 40, 50, 60, 70, 80] := by
  rw [client_function_result]
  decide

/-- C11, amended: over a remote memory holding the ten ints `0, 10, .., 90` at the array base
and the counter `42` forty bytes further, the example client reads the counter as `42`;
`counter++` returns `42` and the read that follows gives `43`; `array[3] = 999` and then
`array[5] = array[2] * 2` read element 2, with value `20`, before writing `40` to element 5;
the final read of elements 0..9 yields `{0,10,20,999,40,40,60,70,80,90}`, which is also what
remote memory holds. The transport calls are made in program order, one per access. -/
theorem example_client_scenario :
    ((List.range 10).map (fun i => remoteValue int_t demoMem demoKey (demoBase + i * 4))
        = [0, 10, 20, 30, 40, 50, 60, 70, 80, 90] ∧
      remoteValue int_t demoMem demoKey (demoBase + 40) = 42) ∧
    (client_function (idealSubstrate 16) demoConn).1 = Except.ok
      { counter_initial := 42
        array_initial := [0, 10, 20, 30, 40, 50, 60, 70, 80, 90]
        increment_result := 42
        counter_after_increment := 43
        counter_after_add := 53
        element_read := 20
        element_written := 40
        counter_final := 53
        array_final := [0, 10, 20, 999, 40, 40, 60, 70, 80, 90] } ∧
    (client_function (idealSubstrate 16) demoConn).2.calls =
      oneRead (demoBase + 40) demoKey 4 ++
      (List.range 10).flatMap (fun i => oneRead (demoBase + i * 4) demoKey 4) ++
      (oneRead (demoBase + 40) demoKey 4 ++ oneWrite (demoBase + 40) demoKey 4) ++
      oneRead (demoBase + 40) demoKey 4 ++
      (oneRead (demoBase + 40) demoKey 4 ++ oneWrite (demoBase + 40) demoKey 4) ++
      oneRead (demoBase + 40) demoKey 4 ++
      oneWrite (demoBase + 3 * 4) demoKey 4 ++
      (oneRead (demoBase + 2 * 4) demoKey 4 ++ oneWrite (demoBase + 5 * 4) demoKey 4) ++
      oneRead (demoBase + 40) demoKey 4 ++
      (List.range 10).flatMap (fun i => oneRead (demoBase + i * 4) demoKey 4) ∧
    (List.range 10).map (fun i =>
      remoteValue int_t (client_function (idealSubstrate 16) demoConn).2.config_.hw
        demoKey (demoBase + i * 4)) = [0, 10, 20, 999, 40, 40, 60, 70, 80, 90] :=
  ⟨by decide, client_function_result, client_function_calls, client_function_memory.1⟩

end RDMA
